import Mathlib

/-!
Verification development for the rfid-access-control repository
(onetime-passcode issuer `onetime.go`, API/enrollment server `api.go`,
embedded tone generator `tone-gen.cc`).

Conventions of the embedding:
* Go `time.Time` instants are integers (nanoseconds since the epoch); the
  Go zero instant is `0`, `t.IsZero()` is `t = 0`, `a.After(b)` is `b < a`,
  and `time.Minute` is `60 * 10^9` nanoseconds.
* Go `error` values are strings (`Except String` for fallible calls,
  `Bool`/`Option String` flags where only nil-ness is observed).
* External collaborators (passphrase generator, credential store, level
  predicate) are parameters of the functions that call them.
-/

set_option autoImplicit false

namespace Earl

/-- Go `time.Minute` in nanoseconds. -/
def timeMinute : Int := 60 * 1000000000

/-- `const expirationWindow = time.Minute * 2` (onetime.go). -/
def expirationWindow : Int := timeMinute * 2

/-- `type Onetime struct` (onetime.go): generated passphrase, badge
identifier (rfid), authorizing operator code, expiration instant. -/
structure Onetime where
  pass : String
  rfid : String
  authUserCode : String
  expiration : Int
deriving DecidableEq

/-- The external `passgen.GetXKCDPassphrase(3)` generator as a behavior:
the `i`-th call returns a phrase together with an error flag (`true` means
the generator reported a failure).  The generator is an external boundary
of the repository, so it is a parameter. -/
def Generator : Type := Nat → String × Bool

/-- `genPass` (onetime.go), with the display-width constant `maxLCDCols`
(defined elsewhere in the repository, value not fixed here) as a parameter
and the recursion depth made explicit by `fuel`: `none` means the
recursion exceeded `fuel` (the Go original recurses without a bound).
`i` indexes the next generator call.  Go body: call the generator; if the
phrase is longer than `maxLCDCols`, replace it by a recursive call; then,
if this call's own error was non-nil, return `""`, else return the
phrase. -/
def genPassAux (maxLCDCols : Nat) (gen : Generator) : Nat → Nat → Option String
  | 0, _ => none
  | fuel + 1, i =>
    let r := gen i
    let recPass : Option String :=
      if maxLCDCols < r.1.length then genPassAux maxLCDCols gen fuel (i + 1)
      else some r.1
    match recPass with
    | none => none
    | some p => some (if r.2 then "" else p)

/-- `genPass()` (onetime.go): the recursion started at the first generator
call. -/
def genPass (maxLCDCols : Nat) (gen : Generator) (fuel : Nat) : Option String :=
  genPassAux maxLCDCols gen fuel 0

/-- `NewOnetime(now, rfid, authUserCode)` (onetime.go): mint a credential
whose passphrase comes from `genPass()` and whose expiration is
`now + expirationWindow`.  `none` when `genPass`'s recursion exceeds
`fuel`. -/
def NewOnetime (maxLCDCols : Nat) (gen : Generator) (fuel : Nat)
    (now : Int) (rfid authUserCode : String) : Option Onetime :=
  match genPass maxLCDCols gen fuel with
  | none => none
  | some pass =>
      some { pass := pass, rfid := rfid, authUserCode := authUserCode,
             expiration := now + expirationWindow }

/-- `(o *Onetime) IsExpired(now)` (onetime.go): `now.After(o.expiration)`,
i.e. strictly later than the expiration. -/
def Onetime.IsExpired (o : Onetime) (now : Int) : Bool :=
  decide (o.expiration < now)

/-- A generator behavior that always returns a 17-character phrase and
never reports an error. -/
def overlongGen : Generator := fun _ => ("aaaaaaaaaaaaaaaaa", false)

/-- Divergence of `genPass` on `overlongGen` with display width 16, in the
fuel model: no recursion depth, from any call index, produces a result. -/
def genPassDivergesOnOverlong : Prop :=
  ∀ fuel i, genPassAux 16 overlongGen fuel i = none

/-- A generator used by witnesses: every call returns `"ok"` and no
error. -/
def witnessGen : Generator := fun _ => ("ok", false)

/-- Modelled from the spec: `AppEventType` (§3) is a closed enumeration
declared outside the given source; modelled as strings. -/
abbrev AppEventType : Type := String

/-- Modelled from the spec: `Target` (§3) is the destination/subject of an
event, declared outside the given source; modelled as a string. -/
abbrev EvTarget : Type := String

/-- Modelled from the spec: `AppEvent` (the DomainEvent, §3) is declared
outside the given source; its fields are exactly those read by
`JsonEventFromAppEvent` in api.go.  `Timeout = 0` is the Go zero instant
(absent timeout). -/
structure AppEvent where
  Timestamp : Int
  Ev : AppEventType
  Target : EvTarget
  Source : String
  Msg : String
  Value : Int
  Timeout : Int
deriving DecidableEq

/-- `JsonAppEvent` (api.go): the wire projection of an `AppEvent`, with an
`IsHistoricEvent` marker and the timeout turned into a nullable pointer
(`Option`). -/
structure JsonAppEvent where
  IsHistoricEvent : Bool
  Timestamp : Int
  Ev : AppEventType
  Target : EvTarget
  Source : String
  Msg : String
  Value : Int
  Timeout : Option Int
deriving DecidableEq

/-- `JsonEventFromAppEvent` (api.go): copy the fields; set the timeout
pointer only when the source timeout is not the zero instant.  The
historic marker is left at its zero value `false`. -/
def JsonEventFromAppEvent (event : AppEvent) : JsonAppEvent :=
  { IsHistoricEvent := false
    Timestamp := event.Timestamp
    Ev := event.Ev
    Target := event.Target
    Source := event.Source
    Msg := event.Msg
    Value := event.Value
    Timeout := if event.Timeout = 0 then none else some event.Timeout }

/-- A JSON field value as produced for a `JsonAppEvent`. -/
inductive JsonValue where
  | str (s : String)
  | num (n : Int)
  | jbool (b : Bool)
  | jtime (t : Int)
deriving DecidableEq

/-- The field list Go `encoding/json` produces for a `JsonAppEvent`,
following the struct tags of api.go: the bool tagged `json:",omitempty"`
keeps its Go field name and is dropped when `false`; `value` (tagged
`omitempty`) is dropped when `0`; the `*time.Time` timeout is dropped when
nil; fields appear in struct declaration order. -/
def marshalJsonAppEvent (j : JsonAppEvent) : List (String × JsonValue) :=
  (if j.IsHistoricEvent then [("IsHistoricEvent", JsonValue.jbool true)] else []) ++
  [("timestamp", JsonValue.jtime j.Timestamp),
   ("type", JsonValue.str j.Ev),
   ("target", JsonValue.str j.Target),
   ("source", JsonValue.str j.Source),
   ("msg", JsonValue.str j.Msg)] ++
  (if j.Value = 0 then [] else [("value", JsonValue.num j.Value)]) ++
  (match j.Timeout with
   | none => []
   | some t => [("timeout", JsonValue.jtime t)])

/-- The Go `map[AppEventType]*JsonAppEvent` of last events, as an
association list with distinct keys. -/
abbrev EventMap : Type := List (AppEventType × JsonAppEvent)

/-- Go map assignment `m[k] = v`: replace the entry for `k` when present,
otherwise add one. -/
def mapAssign : EventMap → AppEventType → JsonAppEvent → EventMap
  | [], k, v => [(k, v)]
  | (k', v') :: rest, k, v =>
    if k' = k then (k, v) :: rest else (k', v') :: mapAssign rest k v

/-- Go map lookup `m[k]`. -/
def mapLookup : EventMap → AppEventType → Option JsonAppEvent
  | [], _ => none
  | (k', v) :: rest, k => if k' = k then some v else mapLookup rest k

/-- The body of the `collectLastEvents` loop (api.go): jsonify the drained
event, mark it historic, and assign it to the last-events map under its
type. -/
def cacheStep (m : EventMap) (ev : AppEvent) : EventMap :=
  mapAssign m ev.Ev { JsonEventFromAppEvent ev with IsHistoricEvent := true }

/-- `collectLastEvents` (api.go), run on the finite sequence of events
drained from the bus subscription. -/
def collectLastEvents (evs : List AppEvent) : EventMap :=
  evs.foldl cacheStep []

/-- What one call of the delivery primitive did: the flag it reported
upstream, the byte strings it handed to `out.Write`, and whether it
flushed the response. -/
structure WriteOutcome where
  ret : Bool
  writes : List String
  flushed : Bool
deriving DecidableEq

/-- `writeJSONEvent` (api.go).  `enc` is the `json.Marshal` result
(`none` = encoding failure), `cb` the JSONP callback name (`""` = none),
`writeOk` whether the one checked `out.Write(json)` call succeeds.  Go
order: on encoding failure return `true` at once; write the JSONP prefix
(unchecked); write the JSON body — on error return `false`; write the
JSONP suffix (unchecked); write `"\n"`; flush; return `true`. -/
def writeJSONEvent (enc : Option String) (cb : String) (writeOk : Bool) :
    WriteOutcome :=
  match enc with
  | none => { ret := true, writes := [], flushed := false }
  | some js =>
    let pre := if cb = "" then [] else [cb ++ "("]
    if writeOk then
      { ret := true
        writes := pre ++ [js] ++ (if cb = "" then [] else [");"]) ++ ["\n"]
        flushed := true }
    else
      { ret := false, writes := pre ++ [js], flushed := false }

/-- One live-tail input: the encoding result for the received event and
whether the checked transport write for it succeeds. -/
structure TailInput where
  enc : Option String
  writeOk : Bool

/-- Observable actions of a streaming handler. -/
inductive StreamAct where
  | write (s : String)
  | flush
  | unsub
deriving DecidableEq

/-- The `for { event := <-appEvents; ... }` live-tail loop of `ServeHTTP`
(api.go), run on a finite prefix of the subscribed channel: relay each
event through `writeJSONEvent`, breaking out on the first failed delivery.
Returns the action trace and whether the loop terminated (`false` = still
blocked reading the channel). -/
def liveTailLoop (cb : String) : List TailInput → List StreamAct × Bool
  | [] => ([], false)
  | inp :: rest =>
    let o := writeJSONEvent inp.enc cb inp.writeOk
    let acts := o.writes.map StreamAct.write ++
      (if o.flushed then [StreamAct.flush] else [])
    if o.ret then
      let r := liveTailLoop cb rest
      (acts ++ r.1, r.2)
    else (acts, true)

/-- The live-tail phase of `ServeHTTP` including the
`a.bus.Unsubscribe(appEvents)` that follows the loop (api.go). -/
def liveTailHandler (cb : String) (inps : List TailInput) :
    List StreamAct × Bool :=
  let r := liveTailLoop cb inps
  (r.1 ++ (if r.2 then [StreamAct.unsub] else []), r.2)

/-- An immediate HTTP response: status code and body. -/
structure HttpResponse where
  status : Nat
  body : String
deriving DecidableEq

/-- Where the router sends a request: an immediate response, or one of
the three handlers. -/
inductive Routed where
  | done (r : HttpResponse)
  | ui
  | useradd
  | events
deriving DecidableEq

/-- The routing prefix of `ApiServer.ServeHTTP` (api.go): reject methods
other than GET/POST with 405 and an empty body; dispatch `/` to the UI
handler, `/useradd` to the enrollment handler, `/api/events` to the feed;
answer every other path with 404 and the fixed hint body. -/
def ServeHTTPRoute (method path : String) : Routed :=
  if method ≠ "GET" ∧ method ≠ "POST" then
    Routed.done { status := 405, body := "" }
  else if path = "/" then Routed.ui
  else if path = "/useradd" then Routed.useradd
  else if path ≠ "/api/events" then
    Routed.done
      { status := 404
        body := "Nothing to see here. The cool stuff is happening at /api/events" }
  else Routed.events

/-- Modelled from the spec: `User` (UserRecord, §3) is declared outside
the given source; its fields are exactly those written by the enrollment
closure in api.go.  `ValidFrom`/`ValidTo` are instants (`0` = the Go zero
instant `time.Time{}`); the privilege level is its string code. -/
structure User where
  Name : String
  ContactInfo : String
  UserLevel : String
  ValidFrom : Int
  ValidTo : Int
deriving DecidableEq

/-- Modelled from the spec: the `Authenticator` store (§6) is an external
collaborator; it offers passkey→credential exchange (failing with a
descriptive reason), badge→user lookup, and an update transaction
authorized by the (operator code, badge identifier) pair whose returned
value api.go discards. -/
structure Authenticator where
  GetOnetime : String → Except String Onetime
  FindUser : String → Option User
  UpdateUser : String → String → (User → User × Bool) → Bool

/-- A parsed, single-valued form: Go `r.Form.Get` returns `""` for a
missing field, so a missing field and an empty value coincide. -/
structure Form where
  passkey : String
  name : String
  contactInfo : String
  userType : String
deriving DecidableEq

/-- Go `fmt`'s `%s` rendering of the `*Onetime` struct pointer, used by
the "not mapped" message of api.go: `&\x7bpass rfid authUserCode
expiration\x7d` with the instant rendered as its integer. -/
def Onetime.goString (o : Onetime) : String :=
  "&\x7b" ++ o.pass ++ " " ++ o.rfid ++ " " ++ o.authUserCode ++ " " ++
    toString o.expiration ++ "\x7d"

/-- Everything observable about one `UseraddHandler` run: response status
and body, the update transaction handed to the store (when reached), and
the store's returned value (which the handler ignores). -/
structure UseraddOutcome where
  status : Nat
  body : String
  updateCall : Option (String × String × (User → User × Bool))
  storeResult : Option Bool

/-- `ApiServer.UseraddHandler` (api.go).  `isValidLevel` is the external
level predicate; `parseErr` is the `r.ParseForm()` result (`some e` =
parse failure, reported inline while processing continues); `form` is the
parsed form.  Mirrors the Go checks in order: path, method, passkey
non-empty, passkey exchange, name, contactInfo, userType non-empty,
level validity, badge→user lookup; then the update transaction and the
success message built from the form's contactInfo and userType (rendered
as Go prints a `[]string`). -/
def UseraddHandler (auth : Authenticator) (isValidLevel : String → Bool)
    (method path : String) (parseErr : Option String) (form : Form) :
    UseraddOutcome :=
  if path ≠ "/useradd" then
    { status := 404, body := "Not found\n", updateCall := none,
      storeResult := none }
  else if method ≠ "POST" then
    { status := 405, body := "Method not allowed\n", updateCall := none,
      storeResult := none }
  else
    let pre := match parseErr with
      | some e => "invalid form " ++ e
      | none => ""
    if form.passkey = "" then
      { status := 200, body := pre ++ "Must submit passkey\n",
        updateCall := none, storeResult := none }
    else
      match auth.GetOnetime form.passkey with
      | Except.error e =>
        { status := 200, body := pre ++ "Failed, " ++ e ++ "\n",
          updateCall := none, storeResult := none }
      | Except.ok onetime =>
        if form.name = "" then
          { status := 200, body := pre ++ "Must submit name\n",
            updateCall := none, storeResult := none }
        else if form.contactInfo = "" then
          { status := 200, body := pre ++ "Must submit email\n",
            updateCall := none, storeResult := none }
        else if form.userType = "" then
          { status := 200, body := pre ++ "Must submit user type\n",
            updateCall := none, storeResult := none }
        else if !isValidLevel form.userType then
          { status := 200,
            body := pre ++ "level [" ++ form.userType ++ "] is not valid\n",
            updateCall := none, storeResult := none }
        else
          match auth.FindUser onetime.rfid with
          | none =>
            { status := 200
              body := pre ++ "passkey [" ++ onetime.goString ++
                "] not mapped to user, try again\n"
              updateCall := none, storeResult := none }
          | some _ =>
            let updateFn : User → User × Bool := fun u =>
              ({ u with
                  ContactInfo := form.contactInfo
                  Name := form.name
                  UserLevel := form.userType
                  ValidFrom := 0
                  ValidTo := 0 },
               true)
            { status := 200
              body := pre ++ "Successfully added [" ++ form.contactInfo ++
                "] as a [" ++ form.userType ++ "]\n"
              updateCall := some (onetime.authUserCode, onetime.rfid, updateFn)
              storeResult :=
                some (auth.UpdateUser onetime.authUserCode onetime.rfid
                  updateFn) }

/-- Tone generator state (tone-gen.cc): the two `volatile` cycle scalars,
the OCIE2 bit of TIMSK (output-compare interrupt enable), the
`TONE_GEN_OUT_BIT` of the output port, and the OCR2 compare threshold. -/
structure ToneState where
  wait_time : Nat
  start_time : Nat
  ocie2 : Bool
  pin : Bool
  ocr2 : Nat
deriving DecidableEq

/-- Unsigned `Clock::cycle_t` subtraction `now - start`, modulo `2 ^ w`
for a counter width `w`. -/
def cycleSub (w now start : Nat) : Nat :=
  (now + (2 ^ w - start % 2 ^ w)) % 2 ^ w

/-- `ISR(TIMER2_COMP_vect)` (tone-gen.cc): on a compare match with the
cycle counter at `now`, toggle the output pin while the elapsed cycles
since the recorded start are below the recorded duration; otherwise
disable the output-compare interrupt and drive the pin low. -/
def isrTimer2Comp (w now : Nat) (s : ToneState) : ToneState :=
  if cycleSub w now s.start_time < s.wait_time then
    { s with pin := !s.pin }
  else
    { s with ocie2 := false, pin := false }

/-- Modelled from the spec: `ToneOn(divider)` is declared in `tone-gen.h`,
which is not part of the given source; per §4.3 it enables the
output-compare interrupt using `divider` as the compare threshold. -/
def ToneOn (divider : Nat) (s : ToneState) : ToneState :=
  { s with ocie2 := true, ocr2 := divider }

/-- `ToneGen::Tone(divider, duration_cycles)` (tone-gen.cc): record the
duration and the current cycle count `now`, then start the tone via
`ToneOn`. -/
def ToneGenTone (divider duration_cycles now : Nat) (s : ToneState) :
    ToneState :=
  ToneOn divider { s with wait_time := duration_cycles, start_time := now }

/-- A concrete credential for witnesses. -/
def demoOnetime : Onetime :=
  { pass := "pp", rfid := "badge1", authUserCode := "op1", expiration := 0 }

/-- A concrete user record for witnesses. -/
def demoUser : User :=
  { Name := "old", ContactInfo := "old@x", UserLevel := "guest",
    ValidFrom := 5, ValidTo := 9 }

/-- A concrete store for witnesses: one known passkey, one known badge,
an update transaction the store rejects (returns `false`). -/
def demoAuth : Authenticator :=
  { GetOnetime := fun k =>
      if k = "pk" then Except.ok demoOnetime else Except.error "unknown code"
    FindUser := fun r => if r = "badge1" then some demoUser else none
    UpdateUser := fun _ _ _ => false }

/-- A concrete level predicate for witnesses: only `"member"` is valid. -/
def demoLvl : String → Bool := fun s => s == "member"

/-- A concrete valid form for witnesses. -/
def demoForm : Form :=
  { passkey := "pk", name := "Alice", contactInfo := "alice@example.com",
    userType := "member" }

/-- The marshalled wire form of an event as the feed sends it: the JSON
projection with a given historic marker, run through the marshaller. -/
def wireFields (ev : AppEvent) (hist : Bool) : List (String × JsonValue) :=
  marshalJsonAppEvent { JsonEventFromAppEvent ev with IsHistoricEvent := hist }

/-- A concrete event for witnesses (zero value, zero timeout). -/
def demoEventA : AppEvent :=
  { Timestamp := 1, Ev := "doorbell", Target := "gate", Source := "hall",
    Msg := "m1", Value := 0, Timeout := 0 }

/-- A second concrete event of the same type for witnesses (non-zero value
and timeout). -/
def demoEventB : AppEvent :=
  { Timestamp := 2, Ev := "doorbell", Target := "gate", Source := "hall",
    Msg := "m2", Value := 3, Timeout := 7 }

end Earl

namespace Earl

/-- Any phrase `genPassAux` returns fits the display width: the result is
either a fitting phrase or `""`. -/
theorem genPassAux_length_le (maxLCDCols : Nat) (gen : Generator) :
    ∀ fuel i s, genPassAux maxLCDCols gen fuel i = some s →
      s.length ≤ maxLCDCols := by
  intro fuel
  induction fuel with
  | zero => intro i s h; exact absurd h (by simp [genPassAux])
  | succ n ih =>
    intro i s h
    simp only [genPassAux] at h
    by_cases hlen : maxLCDCols < (gen i).1.length
    · rw [if_pos hlen] at h
      cases hrec : genPassAux maxLCDCols gen n (i + 1) with
      | none => rw [hrec] at h; exact absurd h (by simp)
      | some p =>
        rw [hrec] at h
        simp only [Option.some.injEq] at h
        by_cases herr : (gen i).2
        · simp [herr] at h; simp [← h]
        · simp [herr] at h; rw [← h]; exact ih (i + 1) p hrec
    · rw [if_neg hlen] at h
      simp only [Option.some.injEq] at h
      by_cases herr : (gen i).2
      · simp [herr] at h; simp [← h]
      · simp [herr] at h; rw [← h]; omega

/-- If the generator call that starts the recursion reports a failure, any
result is the empty phrase. -/
theorem genPassAux_err_empty (maxLCDCols : Nat) (gen : Generator)
    (fuel i : Nat) (s : String) (herr : (gen i).2 = true)
    (h : genPassAux maxLCDCols gen fuel i = some s) : s = "" := by
  cases fuel with
  | zero => exact absurd h (by simp [genPassAux])
  | succ n =>
    simp only [genPassAux, herr] at h
    cases hrec : (if maxLCDCols < (gen i).1.length then
        genPassAux maxLCDCols gen n (i + 1) else some (gen i).1) with
    | none => rw [hrec] at h; exact absurd h (by simp)
    | some p => rw [hrec] at h; simp at h; exact h.symm

/-- If some generator call within reach of the fuel produces a fitting
phrase, the recursion terminates. -/
theorem genPassAux_isSome (maxLCDCols : Nat) (gen : Generator) :
    ∀ fuel i, (∃ j, i ≤ j ∧ j < i + fuel ∧ (gen j).1.length ≤ maxLCDCols) →
      (genPassAux maxLCDCols gen fuel i).isSome = true := by
  intro fuel
  induction fuel with
  | zero =>
    intro i ⟨j, h1, h2, _⟩
    omega
  | succ n ih =>
    intro i ⟨j, h1, h2, h3⟩
    simp only [genPassAux]
    by_cases hlen : maxLCDCols < (gen i).1.length
    · rw [if_pos hlen]
      have hij : i ≠ j := by
        intro he; rw [← he] at h3; omega
      have hrec := ih (i + 1) ⟨j, by omega, by omega, h3⟩
      cases hr : genPassAux maxLCDCols gen n (i + 1) with
      | none => rw [hr] at hrec; simp at hrec
      | some p => simp
    · rw [if_neg hlen]; simp

/-- Go map assignment: looking up the assigned key yields the new value,
any other key is unaffected. -/
theorem mapLookup_mapAssign (m : EventMap) (k t : AppEventType)
    (v : JsonAppEvent) :
    mapLookup (mapAssign m k v) t =
      if k = t then some v else mapLookup m t := by
  induction m with
  | nil => simp only [mapAssign, mapLookup]
  | cons p rest ih =>
    obtain ⟨k', v'⟩ := p
    by_cases h : k' = k
    · subst h
      simp only [mapAssign, if_pos rfl, mapLookup]
      by_cases ht : k' = t
      · simp [ht]
      · simp [ht]
    · simp only [mapAssign, if_neg h, mapLookup]
      by_cases ht : k' = t
      · subst ht
        have hk : ¬ k = k' := fun he => h he.symm
        simp [hk]
      · simp [ht, ih]

/-- Go map assignment: the key set gains (at most) the assigned key. -/
theorem mem_keys_mapAssign (m : EventMap) (k t : AppEventType)
    (v : JsonAppEvent) :
    t ∈ (mapAssign m k v).map Prod.fst ↔ t = k ∨ t ∈ m.map Prod.fst := by
  induction m with
  | nil => simp [mapAssign]
  | cons p rest ih =>
    obtain ⟨k', v'⟩ := p
    by_cases h : k' = k
    · subst h
      simp [mapAssign]
    · simp [mapAssign, h, ih]
      tauto

/-- Go map assignment preserves distinctness of keys. -/
theorem nodup_keys_mapAssign (m : EventMap) (k : AppEventType)
    (v : JsonAppEvent) (h : (m.map Prod.fst).Nodup) :
    ((mapAssign m k v).map Prod.fst).Nodup := by
  induction m with
  | nil => simp [mapAssign]
  | cons p rest ih =>
    obtain ⟨k', v'⟩ := p
    simp only [List.map_cons, List.nodup_cons] at h
    by_cases hk : k' = k
    · subst hk
      simpa [mapAssign] using h
    · simp only [mapAssign, if_neg hk, List.map_cons, List.nodup_cons]
      refine ⟨?_, ih h.2⟩
      intro hmem
      rcases (mem_keys_mapAssign rest k k' v).1 hmem with h1 | h2
      · exact hk h1
      · exact h.1 h2

/-- The cache-updater fold, per key: the last event of type `t` in the
processed sequence wins; keys untouched by the sequence keep their prior
binding. -/
theorem mapLookup_foldl_cacheStep (evs : List AppEvent) (m : EventMap)
    (t : AppEventType) :
    mapLookup (evs.foldl cacheStep m) t =
      match evs.reverse.find? (fun e => e.Ev == t) with
      | some e => some { JsonEventFromAppEvent e with IsHistoricEvent := true }
      | none => mapLookup m t := by
  induction evs generalizing m with
  | nil => simp
  | cons ev rest ih =>
    rw [List.foldl_cons, ih (cacheStep m ev)]
    rw [List.reverse_cons, List.find?_append]
    cases hf : rest.reverse.find? (fun e => e.Ev == t) with
    | some e => simp [hf]
    | none =>
      simp only [hf, Option.none_orElse]
      simp only [List.find?_cons, List.find?_nil]
      by_cases he : ev.Ev = t
      · simp only [cacheStep, he, beq_self_eq_true, cond_true]
        rw [mapLookup_mapAssign]
        simp [he]
      · have hb : (ev.Ev == t) = false := beq_eq_false_iff_ne.mpr he
        simp only [hb, cond_false]
        simp only [cacheStep]
        rw [mapLookup_mapAssign]
        simp [he]

/-- The cache-updater fold, key set: the keys are the prior keys plus the
types occurring in the processed sequence. -/
theorem mem_keys_foldl_cacheStep (evs : List AppEvent) (m : EventMap)
    (t : AppEventType) :
    t ∈ ((evs.foldl cacheStep m).map Prod.fst) ↔
      t ∈ m.map Prod.fst ∨ t ∈ evs.map AppEvent.Ev := by
  induction evs generalizing m with
  | nil => simp
  | cons ev rest ih =>
    rw [List.foldl_cons, ih (cacheStep m ev)]
    simp only [cacheStep, mem_keys_mapAssign, List.map_cons, List.mem_cons]
    tauto

/-- The cache-updater fold preserves distinctness of keys. -/
theorem nodup_keys_foldl_cacheStep (evs : List AppEvent) (m : EventMap)
    (h : (m.map Prod.fst).Nodup) :
    ((evs.foldl cacheStep m).map Prod.fst).Nodup := by
  induction evs generalizing m with
  | nil => exact h
  | cons ev rest ih =>
    rw [List.foldl_cons]
    exact ih _ (nodup_keys_mapAssign _ _ _ h)

/-- C2: a credential minted by `NewOnetime` at instant `now` expires at
exactly `now + expirationWindow` (two minutes); `IsExpired q` is true iff
`q` is strictly later than the expiration; hence the credential is not
expired at any instant `≤ now + 2min` and expired at any instant
`> now + 2min`. -/
theorem newOnetime_expiration (maxLCDCols fuel : Nat) (gen : Generator)
    (now : Int) (rfid code : String) (ot : Onetime)
    (h : NewOnetime maxLCDCols gen fuel now rfid code = some ot) :
    ot.expiration = now + expirationWindow ∧
    (∀ q : Int, ot.IsExpired q = true ↔ ot.expiration < q) ∧
    (∀ q : Int, q ≤ now + expirationWindow → ot.IsExpired q = false) ∧
    (∀ q : Int, now + expirationWindow < q → ot.IsExpired q = true) := by
  have hexp : ot.expiration = now + expirationWindow := by
    unfold NewOnetime at h
    cases hg : genPass maxLCDCols gen fuel with
    | none => rw [hg] at h; exact absurd h (by simp)
    | some p =>
      rw [hg] at h
      simp only [Option.some.injEq] at h
      rw [← h]
  refine ⟨hexp, ?_, ?_, ?_⟩
  · intro q; simp [Onetime.IsExpired]
  · intro q hq; simp only [Onetime.IsExpired, decide_eq_false_iff_not]
    omega
  · intro q hq; simp only [Onetime.IsExpired, decide_eq_true_eq]
    omega

/-- C2 witness: the theorem applied to the credential issued at instant 0
by the concrete `witnessGen`, queried one nanosecond on either side of
the two-minute boundary. -/
theorem newOnetime_expiration_witness :
    ({ pass := "ok", rfid := "b", authUserCode := "c",
       expiration := 120000000000 } : Onetime).IsExpired 120000000001 = true ∧
    ({ pass := "ok", rfid := "b", authUserCode := "c",
       expiration := 120000000000 } : Onetime).IsExpired 120000000000 = false := by
  have h := newOnetime_expiration 16 1 witnessGen 0 "b" "c"
    { pass := "ok", rfid := "b", authUserCode := "c",
      expiration := 120000000000 } (by decide)
  exact ⟨h.2.2.2 120000000001 (by decide), h.2.2.1 120000000000 (by decide)⟩

/-- C3 counterexample: under the generator behavior that always returns a
17-character phrase and never reports an error, `genPass` with display
width 16 recurses forever — no recursion depth, from any call index,
returns a result — so issuance does not complete for every generator
behavior. -/
theorem genPass_diverges_on_overlong : genPassDivergesOnOverlong := by
  intro fuel
  induction fuel with
  | zero => intro i; rfl
  | succ n ih =>
    intro i
    have hlen : (16 : Nat) < ("aaaaaaaaaaaaaaaaa" : String).length := by decide
    simp only [genPassAux, overlongGen]
    rw [if_pos hlen, ih (i + 1)]

/-- C3 (amended): for every generator behavior, any phrase `genPass`
returns fits the display width, and a failure reported by the generator
call that starts the recursion degrades the result to the empty phrase;
issuance completes whenever some generator call yields a fitting phrase —
but, per the counterexample, not for every generator behavior. -/
theorem genPass_bounded_and_degrading (maxLCDCols : Nat) (gen : Generator) :
    (∀ fuel s, genPass maxLCDCols gen fuel = some s →
      s.length ≤ maxLCDCols) ∧
    (∀ fuel s, (gen 0).2 = true → genPass maxLCDCols gen fuel = some s →
      s = "") ∧
    (∀ k, (gen k).1.length ≤ maxLCDCols →
      ∃ s, genPass maxLCDCols gen (k + 1) = some s) := by
  refine ⟨?_, ?_, ?_⟩
  · intro fuel s h
    exact genPassAux_length_le maxLCDCols gen fuel 0 s h
  · intro fuel s herr h
    exact genPassAux_err_empty maxLCDCols gen fuel 0 s herr h
  · intro k hk
    have h := genPassAux_isSome maxLCDCols gen (k + 1) 0
      ⟨k, Nat.zero_le k, by omega, hk⟩
    cases hg : genPassAux maxLCDCols gen (k + 1) 0 with
    | none => rw [hg] at h; simp at h
    | some s => exact ⟨s, hg⟩

/-- C3 witness: the amended theorem applied to the concrete `witnessGen`
whose phrases always fit. -/
theorem genPass_bounded_witness :
    ("ok" : String).length ≤ 16 ∧ genPass 16 witnessGen 1 = some "ok" := by
  refine ⟨?_, by decide⟩
  exact (genPass_bounded_and_degrading 16 witnessGen).1 1 "ok" (by decide)

/-- C4: after draining any finite event sequence, the last-event cache has
distinct keys, its key set is exactly the set of event types occurring in
the sequence, the entry for a type is the most recently published event of
that type converted to its wire form, and every cached entry carries the
historic marker. -/
theorem collectLastEvents_cache (evs : List AppEvent) (t : AppEventType) :
    ((collectLastEvents evs).map Prod.fst).Nodup ∧
    (t ∈ (collectLastEvents evs).map Prod.fst ↔ t ∈ evs.map AppEvent.Ev) ∧
    mapLookup (collectLastEvents evs) t =
      (evs.reverse.find? (fun e => e.Ev == t)).map
        (fun e => { JsonEventFromAppEvent e with IsHistoricEvent := true }) ∧
    (∀ j, mapLookup (collectLastEvents evs) t = some j →
      j.IsHistoricEvent = true) := by
  refine ⟨?_, ?_, ?_, ?_⟩
  · exact nodup_keys_foldl_cacheStep evs [] (by simp)
  · have h := mem_keys_foldl_cacheStep evs [] t
    simpa [collectLastEvents] using h
  · rw [collectLastEvents, mapLookup_foldl_cacheStep evs [] t]
    cases evs.reverse.find? (fun e => e.Ev == t) <;> simp [mapLookup]
  · intro j hj
    rw [collectLastEvents, mapLookup_foldl_cacheStep evs [] t] at hj
    cases hf : evs.reverse.find? (fun e => e.Ev == t) with
    | none => rw [hf] at hj; simp [mapLookup] at hj
    | some e =>
      rw [hf] at hj
      simp only [Option.some.injEq] at hj
      rw [← hj]

/-- C4 witness: two events of the same type; the cache keeps exactly the
later one, historic-marked. -/
theorem collectLastEvents_cache_witness :
    mapLookup (collectLastEvents [demoEventA, demoEventB]) "doorbell" =
      some { JsonEventFromAppEvent demoEventB with IsHistoricEvent := true } ∧
    ({ JsonEventFromAppEvent demoEventB with
        IsHistoricEvent := true } : JsonAppEvent).IsHistoricEvent = true := by
  have h := collectLastEvents_cache [demoEventA, demoEventB] "doorbell"
  refine ⟨?_, rfl⟩
  rw [h.2.2.1]
  decide

/-- C5: the marshalled wire form of a projected event binds `value` iff
the source value is non-zero, binds `timeout` iff the source timeout is
not the zero instant, binds the historic-marker field (Go marshal name
`IsHistoricEvent`) iff the marker is true, and copies timestamp, type,
target, source, msg, value and timeout unchanged. -/
theorem wire_omission_rules (ev : AppEvent) (hist : Bool) :
    (wireFields ev hist).lookup "value" =
      (if ev.Value = 0 then none else some (JsonValue.num ev.Value)) ∧
    (wireFields ev hist).lookup "timeout" =
      (if ev.Timeout = 0 then none else some (JsonValue.jtime ev.Timeout)) ∧
    (wireFields ev hist).lookup "IsHistoricEvent" =
      (if hist then some (JsonValue.jbool true) else none) ∧
    (wireFields ev hist).lookup "timestamp" =
      some (JsonValue.jtime ev.Timestamp) ∧
    (wireFields ev hist).lookup "type" = some (JsonValue.str ev.Ev) ∧
    (wireFields ev hist).lookup "target" = some (JsonValue.str ev.Target) ∧
    (wireFields ev hist).lookup "source" = some (JsonValue.str ev.Source) ∧
    (wireFields ev hist).lookup "msg" = some (JsonValue.str ev.Msg) := by
  cases hist <;> by_cases hv : ev.Value = 0 <;> by_cases ht : ev.Timeout = 0 <;>
    simp [wireFields, marshalJsonAppEvent, JsonEventFromAppEvent, hv, ht,
      List.lookup]

/-- C6: the delivery primitive reports success upstream on an encoding
failure (writing nothing), reports failure exactly when the one checked
transport write of the encoded body fails, ends every delivered event
with a newline write followed by a flush; and whenever the live-tail loop
terminates, the handler's final action is the bus unsubscribe. -/
theorem stream_delivery_and_unsubscribe (cb : String) :
    (∀ w, (writeJSONEvent none cb w).ret = true ∧
      (writeJSONEvent none cb w).writes = []) ∧
    (∀ enc w, (writeJSONEvent enc cb w).ret = false ↔
      (enc.isSome = true ∧ w = false)) ∧
    (∀ js, (writeJSONEvent (some js) cb true).writes.getLast? = some "\n" ∧
      (writeJSONEvent (some js) cb true).flushed = true) ∧
    (∀ inps, (liveTailHandler cb inps).2 = true →
      (liveTailHandler cb inps).1.getLast? = some StreamAct.unsub) := by
  refine ⟨?_, ?_, ?_, ?_⟩
  · intro w; exact ⟨rfl, rfl⟩
  · intro enc w
    cases enc with
    | none => simp [writeJSONEvent]
    | some js =>
      cases w <;> simp [writeJSONEvent]
  · intro js
    by_cases hcb : cb = "" <;> simp [writeJSONEvent, hcb]
  · intro inps hdone
    simp only [liveTailHandler] at hdone ⊢
    rw [hdone]
    simp

/-- C6 witness: a two-event tail whose second delivery fails; the handler
terminates and its final action is the unsubscribe. -/
theorem stream_unsubscribe_witness :
    (liveTailHandler "" [{ enc := none, writeOk := true },
        { enc := some "x", writeOk := false }]).2 = true ∧
    (liveTailHandler "" [{ enc := none, writeOk := true },
        { enc := some "x", writeOk := false }]).1.getLast? =
      some StreamAct.unsub := by
  refine ⟨by decide, ?_⟩
  exact (stream_delivery_and_unsubscribe "").2.2.2
    [{ enc := none, writeOk := true }, { enc := some "x", writeOk := false }]
    (by decide)

/-- C8: the router answers any method other than GET/POST with 405 and an
empty body, and answers GET/POST on any path other than `/`, `/useradd`,
`/api/events` with 404 and the fixed hint body. -/
theorem route_rejections (method path : String) :
    (method ≠ "GET" → method ≠ "POST" →
      ServeHTTPRoute method path =
        Routed.done { status := 405, body := "" }) ∧
    ((method = "GET" ∨ method = "POST") → path ≠ "/" → path ≠ "/useradd" →
      path ≠ "/api/events" →
      ServeHTTPRoute method path = Routed.done
        { status := 404
          body := "Nothing to see here. The cool stuff is happening at /api/events" }) := by
  constructor
  · intro h1 h2
    simp [ServeHTTPRoute, h1, h2]
  · intro hm h1 h2 h3
    have hGP : ¬(method ≠ "GET" ∧ method ≠ "POST") := by tauto
    simp [ServeHTTPRoute, hGP, h1, h2, h3]

/-- C8 witness: a DELETE request gets 405 with an empty body; a GET on an
unknown path gets 404 with the hint body. -/
theorem route_rejections_witness :
    ServeHTTPRoute "DELETE" "/useradd" =
      Routed.done { status := 405, body := "" } ∧
    ServeHTTPRoute "GET" "/unknown-path" = Routed.done
      { status := 404
        body := "Nothing to see here. The cool stuff is happening at /api/events" } := by
  constructor
  · exact (route_rejections "DELETE" "/useradd").1 (by decide) (by decide)
  · exact (route_rejections "GET" "/unknown-path").2 (Or.inl rfl)
      (by decide) (by decide) (by decide)

/-- C9: `Tone(divider, duration)` records the duration and the current
cycle count and enables the output-compare interrupt with `divider` as
threshold; every compare match toggles the pin while the elapsed cycles
since the recorded start are strictly below the recorded duration, and
otherwise disables the interrupt and forces the pin low; a second `Tone`
call while sounding simply overwrites the shared duration/start pair. -/
theorem tone_isr_behavior (w divider duration now t : Nat) (s : ToneState) :
    (ToneGenTone divider duration now s).wait_time = duration ∧
    (ToneGenTone divider duration now s).start_time = now ∧
    (ToneGenTone divider duration now s).ocie2 = true ∧
    (ToneGenTone divider duration now s).ocr2 = divider ∧
    (cycleSub w t now < duration →
      isrTimer2Comp w t (ToneGenTone divider duration now s) =
        { ToneGenTone divider duration now s with
            pin := !(ToneGenTone divider duration now s).pin }) ∧
    (duration ≤ cycleSub w t now →
      (isrTimer2Comp w t (ToneGenTone divider duration now s)).ocie2 = false ∧
      (isrTimer2Comp w t (ToneGenTone divider duration now s)).pin = false) ∧
    (∀ d2 dur2 now2,
      (ToneGenTone d2 dur2 now2 (ToneGenTone divider duration now s)).wait_time
          = dur2 ∧
      (ToneGenTone d2 dur2 now2 (ToneGenTone divider duration now s)).start_time
          = now2) := by
  refine ⟨rfl, rfl, rfl, rfl, ?_, ?_, ?_⟩
  · intro h
    simp [isrTimer2Comp, ToneGenTone, ToneOn, h]
  · intro h
    have hn : ¬ cycleSub w t now < duration := by omega
    simp [isrTimer2Comp, ToneGenTone, ToneOn, hn]
  · intro d2 dur2 now2
    exact ⟨rfl, rfl⟩

/-- C9 witness: with an 8-bit cycle counter, a tone of 10 cycles started
at count 5 toggles the pin on a compare match at count 7 (elapsed 2), and
at count 20 (elapsed 15) disables the interrupt and forces the pin low. -/
theorem tone_isr_behavior_witness :
    isrTimer2Comp 8 7 (ToneGenTone 100 10 5
        { wait_time := 0, start_time := 0, ocie2 := false, pin := false,
          ocr2 := 0 }) =
      { wait_time := 10, start_time := 5, ocie2 := true, pin := true,
        ocr2 := 100 } ∧
    (isrTimer2Comp 8 20 (ToneGenTone 100 10 5
        { wait_time := 0, start_time := 0, ocie2 := false, pin := false,
          ocr2 := 0 })).ocie2 = false := by
  have h := tone_isr_behavior 8 100 10 5 7
    { wait_time := 0, start_time := 0, ocie2 := false, pin := false,
      ocr2 := 0 }
  have h2 := tone_isr_behavior 8 100 10 5 20
    { wait_time := 0, start_time := 0, ocie2 := false, pin := false,
      ocr2 := 0 }
  constructor
  · rw [h.2.2.2.2.1 (by decide)]
    decide
  · exact (h2.2.2.2.2.2.1 (by decide)).1

/-- C1: for a POST to `/useradd` whose form parses, validation runs in the
fixed order — passkey non-empty, passkey exchange, name, contactInfo,
userType non-empty, level validity, badge-to-user lookup — and the first
failing check ends the request with exactly its plain-text message,
never invoking the registry update. -/
theorem useradd_validation_order (auth : Authenticator) (lvl : String → Bool)
    (form : Form) :
    (form.passkey = "" →
      UseraddHandler auth lvl "POST" "/useradd" none form =
        { status := 200, body := "Must submit passkey\n",
          updateCall := none, storeResult := none }) ∧
    (∀ e, form.passkey ≠ "" →
      auth.GetOnetime form.passkey = Except.error e →
      UseraddHandler auth lvl "POST" "/useradd" none form =
        { status := 200, body := "Failed, " ++ e ++ "\n",
          updateCall := none, storeResult := none }) ∧
    (∀ ot, form.passkey ≠ "" →
      auth.GetOnetime form.passkey = Except.ok ot → form.name = "" →
      UseraddHandler auth lvl "POST" "/useradd" none form =
        { status := 200, body := "Must submit name\n",
          updateCall := none, storeResult := none }) ∧
    (∀ ot, form.passkey ≠ "" →
      auth.GetOnetime form.passkey = Except.ok ot → form.name ≠ "" →
      form.contactInfo = "" →
      UseraddHandler auth lvl "POST" "/useradd" none form =
        { status := 200, body := "Must submit email\n",
          updateCall := none, storeResult := none }) ∧
    (∀ ot, form.passkey ≠ "" →
      auth.GetOnetime form.passkey = Except.ok ot → form.name ≠ "" →
      form.contactInfo ≠ "" → form.userType = "" →
      UseraddHandler auth lvl "POST" "/useradd" none form =
        { status := 200, body := "Must submit user type\n",
          updateCall := none, storeResult := none }) ∧
    (∀ ot, form.passkey ≠ "" →
      auth.GetOnetime form.passkey = Except.ok ot → form.name ≠ "" →
      form.contactInfo ≠ "" → form.userType ≠ "" →
      lvl form.userType = false →
      UseraddHandler auth lvl "POST" "/useradd" none form =
        { status := 200,
          body := "level [" ++ form.userType ++ "] is not valid\n",
          updateCall := none, storeResult := none }) ∧
    (∀ ot, form.passkey ≠ "" →
      auth.GetOnetime form.passkey = Except.ok ot → form.name ≠ "" →
      form.contactInfo ≠ "" → form.userType ≠ "" →
      lvl form.userType = true → auth.FindUser ot.rfid = none →
      UseraddHandler auth lvl "POST" "/useradd" none form =
        { status := 200,
          body := "passkey [" ++ ot.goString ++
            "] not mapped to user, try again\n",
          updateCall := none, storeResult := none }) := by
  refine ⟨?_, ?_, ?_, ?_, ?_, ?_, ?_⟩
  · intro hp
    simp [UseraddHandler, hp]
  · intro e hp he
    simp [UseraddHandler, hp, he]
  · intro ot hp hot hn
    simp [UseraddHandler, hp, hot, hn]
  · intro ot hp hot hn hc
    simp [UseraddHandler, hp, hot, hn, hc]
  · intro ot hp hot hn hc hu
    simp [UseraddHandler, hp, hot, hn, hc, hu]
  · intro ot hp hot hn hc hu hl
    simp [UseraddHandler, hp, hot, hn, hc, hu, hl]
  · intro ot hp hot hn hc hu hl hf
    simp [UseraddHandler, hp, hot, hn, hc, hu, hl, hf]

/-- C1 witness: the empty-passkey check and the failed passkey exchange
fire on concrete requests, each with exactly its message and no update. -/
theorem useradd_validation_order_witness :
    UseraddHandler demoAuth demoLvl "POST" "/useradd" none
        { passkey := "", name := "", contactInfo := "", userType := "" } =
      { status := 200, body := "Must submit passkey\n",
        updateCall := none, storeResult := none } ∧
    UseraddHandler demoAuth demoLvl "POST" "/useradd" none
        { passkey := "zz", name := "", contactInfo := "", userType := "" } =
      { status := 200, body := "Failed, unknown code\n",
        updateCall := none, storeResult := none } := by
  constructor
  · exact (useradd_validation_order demoAuth demoLvl _).1 rfl
  · exact (useradd_validation_order demoAuth demoLvl _).2.1 "unknown code"
      (by decide) rfl

/-- C7: a POST to `/useradd` that passes all seven checks hands the store
an update transaction keyed by the credential's operator code and badge
identifier that overwrites name, contact info and privilege level and
clears both ends of the validity window, and answers the success body
built from the submitted contactInfo and userType. -/
theorem useradd_success (auth : Authenticator) (lvl : String → Bool)
    (form : Form) (ot : Onetime) (u0 : User)
    (hp : form.passkey ≠ "")
    (hot : auth.GetOnetime form.passkey = Except.ok ot)
    (hn : form.name ≠ "") (hc : form.contactInfo ≠ "")
    (hu : form.userType ≠ "") (hl : lvl form.userType = true)
    (hf : auth.FindUser ot.rfid = some u0) :
    ∃ f, (UseraddHandler auth lvl "POST" "/useradd" none form).updateCall =
        some (ot.authUserCode, ot.rfid, f) ∧
      (∀ u : User, f u =
        ({ u with
            Name := form.name
            ContactInfo := form.contactInfo
            UserLevel := form.userType
            ValidFrom := 0
            ValidTo := 0 }, true)) ∧
      (UseraddHandler auth lvl "POST" "/useradd" none form).body =
        "Successfully added [" ++ form.contactInfo ++ "] as a [" ++
          form.userType ++ "]\n" ∧
      (UseraddHandler auth lvl "POST" "/useradd" none form).status = 200 := by
  have hh : UseraddHandler auth lvl "POST" "/useradd" none form =
      { status := 200
        body := "Successfully added [" ++ form.contactInfo ++ "] as a [" ++
          form.userType ++ "]\n"
        updateCall := some (ot.authUserCode, ot.rfid, fun u =>
          ({ u with
              ContactInfo := form.contactInfo
              Name := form.name
              UserLevel := form.userType
              ValidFrom := 0
              ValidTo := 0 }, true))
        storeResult := some (auth.UpdateUser ot.authUserCode ot.rfid
          (fun u =>
            ({ u with
                ContactInfo := form.contactInfo
                Name := form.name
                UserLevel := form.userType
                ValidFrom := 0
                ValidTo := 0 }, true))) } := by
    simp [UseraddHandler, hp, hot, hn, hc, hu, hl, hf]
  refine ⟨_, ?_, fun u => rfl, ?_, ?_⟩
  · rw [hh]
  · rw [hh]
  · rw [hh]

/-- C7 witness: the fully valid concrete request answers the success
body. -/
theorem useradd_success_witness :
    (UseraddHandler demoAuth demoLvl "POST" "/useradd" none demoForm).body =
      "Successfully added [alice@example.com] as a [member]\n" := by
  obtain ⟨f, h1, h2, h3, h4⟩ := useradd_success demoAuth demoLvl demoForm
    demoOnetime demoUser (by decide) rfl (by decide) (by decide) (by decide)
    rfl rfl
  exact h3

/-- C10: once the seven checks pass, the handler hands the update
transaction to the store and writes the success body without examining
the store's result — whatever value the store's `UpdateUser` returns, the
response body is the success message. -/
theorem useradd_ignores_store_result (auth : Authenticator)
    (lvl : String → Bool) (form : Form) (ot : Onetime) (u0 : User)
    (upd : String → String → (User → User × Bool) → Bool)
    (hp : form.passkey ≠ "")
    (hot : auth.GetOnetime form.passkey = Except.ok ot)
    (hn : form.name ≠ "") (hc : form.contactInfo ≠ "")
    (hu : form.userType ≠ "") (hl : lvl form.userType = true)
    (hf : auth.FindUser ot.rfid = some u0) :
    (UseraddHandler { auth with UpdateUser := upd } lvl "POST" "/useradd"
        none form).body =
      "Successfully added [" ++ form.contactInfo ++ "] as a [" ++
        form.userType ++ "]\n" ∧
    (UseraddHandler { auth with UpdateUser := upd } lvl "POST" "/useradd"
        none form).storeResult =
      some (upd ot.authUserCode ot.rfid (fun u =>
        ({ u with
            ContactInfo := form.contactInfo
            Name := form.name
            UserLevel := form.userType
            ValidFrom := 0
            ValidTo := 0 }, true))) := by
  constructor <;> simp [UseraddHandler, hp, hot, hn, hc, hu, hl, hf]

/-- C10 witness: with a store that rejects the update (returns `false`),
the success body is still written. -/
theorem useradd_ignores_store_result_witness :
    (UseraddHandler { demoAuth with UpdateUser := fun _ _ _ => false }
        demoLvl "POST" "/useradd" none demoForm).body =
      "Successfully added [alice@example.com] as a [member]\n" ∧
    (UseraddHandler { demoAuth with UpdateUser := fun _ _ _ => false }
        demoLvl "POST" "/useradd" none demoForm).storeResult = some false := by
  have h := useradd_ignores_store_result demoAuth demoLvl demoForm demoOnetime
    demoUser (fun _ _ _ => false) (by decide) rfl (by decide) (by decide)
    (by decide) rfl rfl
  exact ⟨h.1, h.2⟩

end Earl
